import Mathlib

/-!
Verification of the CUDA closure-launch core
(`thrust/detail/backend/cuda/detail/launch_closure.inl`).

The file shallowly embeds the launcher: the compile-time dispatch on
`sizeof(NullaryFunction)`, the launch-configuration arithmetic, the
by-pointer host launch as an explicit event trace, and the two device
entry points.  The occupancy services (`max_active_blocks`,
`max_blocksize_with_highest_occupancy`) live in `arch.h`, which is not
part of the sources at hand; they are modelled from the design
document's description of the occupancy calculator.  Machine integers
are modelled as `Nat`; where fixed-width behaviour matters a separate
model reduces every intermediate modulo `2 ^ w`.
-/

/-- Device limits used by the occupancy calculator.
Modelled from the spec: `arch.h`'s `device_properties()` result is not in
the sources; fields follow the DeviceLimits record of the design
document (max threads per block, max resident blocks per
multiprocessor, max resident threads per multiprocessor, shared memory
per multiprocessor, registers per multiprocessor, multiprocessor count,
scheduling granularity). -/
structure cudaDeviceProp where
  maxThreadsPerBlock : Nat
  maxBlocksPerMultiProcessor : Nat
  maxThreadsPerMultiProcessor : Nat
  sharedMemPerMultiProcessor : Nat
  regsPerMultiProcessor : Nat
  multiProcessorCount : Nat
  warpSize : Nat
deriving DecidableEq

/-- Compiled-kernel resource footprint.
Modelled from the spec: `arch.h`'s `function_attributes()` result is not
in the sources; fields follow the KernelFootprint record (registers per
thread, static shared memory per block). -/
structure cudaFuncAttributes where
  numRegs : Nat
  sharedSizeBytes : Nat
deriving DecidableEq

/-- The compile-time dispatch tag of `closure_launcher_base`:
`bool launch_by_value = sizeof(NullaryFunction) <= 256`.  `true` selects
the by-value launch path, `false` the by-pointer path. -/
def launch_by_value (sizeofClosure : Nat) : Bool :=
  decide (sizeofClosure ≤ 256)

/-- Modelled from the spec: `arch.h`'s `max_active_blocks` per
multiprocessor is not in the sources.  Number of blocks of size
`block_size` concurrently resident on one multiprocessor: the minimum
over the register constraint, the shared-memory constraint, the
device's resident-block cap, and the resident-thread cap. -/
def max_active_blocks_per_multiprocessor (dev : cudaDeviceProp) (fp : cudaFuncAttributes)
    (block_size dynamic_smem_per_block : Nat) : Nat :=
  let reg_limit :=
    if fp.numRegs * block_size = 0 then dev.maxBlocksPerMultiProcessor
    else dev.regsPerMultiProcessor / (fp.numRegs * block_size)
  let smem_per_block := fp.sharedSizeBytes + dynamic_smem_per_block
  let smem_limit :=
    if smem_per_block = 0 then dev.maxBlocksPerMultiProcessor
    else dev.sharedMemPerMultiProcessor / smem_per_block
  let thread_limit := dev.maxThreadsPerMultiProcessor / block_size
  min (min reg_limit smem_limit) (min dev.maxBlocksPerMultiProcessor thread_limit)

/-- Modelled from the spec: `arch.h`'s `max_active_blocks` is not in the
sources.  Device-wide count of concurrently resident blocks:
blocks per multiprocessor times the multiprocessor count. -/
def max_active_blocks (dev : cudaDeviceProp) (fp : cudaFuncAttributes)
    (block_size dynamic_smem_per_block : Nat) : Nat :=
  max_active_blocks_per_multiprocessor dev fp block_size dynamic_smem_per_block *
    dev.multiProcessorCount

/-- Occupied threads per multiprocessor at a candidate block size, the
quantity the block-size search maximizes (dynamic shared memory is
given per thread here, as in `block_size_with_maximal_occupancy`). -/
def occupied_threads (dev : cudaDeviceProp) (fp : cudaFuncAttributes)
    (dynamic_smem_bytes_per_thread block_size : Nat) : Nat :=
  max_active_blocks_per_multiprocessor dev fp block_size
    (dynamic_smem_bytes_per_thread * block_size) * block_size

/-- Modelled from the spec: `arch.h`'s
`max_blocksize_with_highest_occupancy` is not in the sources.
Enumerates the positive multiples of the warp width up to the device's
max threads per block and keeps the candidate maximizing the occupied
thread count, ties broken towards the larger block size (the fold
scans candidates in increasing order and replaces the incumbent on
ties). -/
def max_blocksize_with_highest_occupancy (dev : cudaDeviceProp) (fp : cudaFuncAttributes)
    (dynamic_smem_bytes_per_thread : Nat) : Nat :=
  let w := dev.warpSize
  let candidates := (List.range (dev.maxThreadsPerBlock / w)).map (fun i => (i + 1) * w)
  candidates.foldl
    (fun best bs =>
      if occupied_threads dev fp dynamic_smem_bytes_per_thread best ≤
          occupied_threads dev fp dynamic_smem_bytes_per_thread bs
      then bs else best) w

/-- `closure_launcher::block_size_with_maximal_occupancy`: delegates to
the occupancy calculator. -/
def block_size_with_maximal_occupancy (dev : cudaDeviceProp) (fp : cudaFuncAttributes)
    (dynamic_smem_bytes_per_thread : Nat) : Nat :=
  max_blocksize_with_highest_occupancy dev fp dynamic_smem_bytes_per_thread

/-- The clamp at the heart of
`closure_launcher::num_blocks_with_maximal_occupancy`:
`min(max_blocks, (n + (block_size - 1)) / block_size)`, with the
arithmetic carried out in `Nat` (the promoted `large_integer`). -/
def num_blocks_clamped (max_blocks n block_size : Nat) : Nat :=
  min max_blocks ((n + (block_size - 1)) / block_size)

/-- `closure_launcher::num_blocks_with_maximal_occupancy`: queries
`max_active_blocks` for the given block size and dynamic shared memory,
then clamps the ceiling division of `n` by `block_size` to it. -/
def num_blocks_with_maximal_occupancy (dev : cudaDeviceProp) (fp : cudaFuncAttributes)
    (n block_size dynamic_smem_bytes_per_block : Nat) : Nat :=
  num_blocks_clamped (max_active_blocks dev fp block_size dynamic_smem_bytes_per_block)
    n block_size

/-- `closure_launcher::configuration_with_maximal_occupancy`: block size
with maximal occupancy at zero dynamic shared memory, then the clamped
block count for `n`; returns `(num_blocks, block_size)`. -/
def configuration_with_maximal_occupancy (dev : cudaDeviceProp) (fp : cudaFuncAttributes)
    (n : Nat) : Nat × Nat :=
  let block_size := block_size_with_maximal_occupancy dev fp 0
  let num_blocks := num_blocks_with_maximal_occupancy dev fp n block_size 0
  (num_blocks, block_size)

/-- A concrete device for witnesses: 1024 max threads per block, 32
resident blocks and 2048 resident threads per multiprocessor, 48 KiB of
shared memory and 65536 registers per multiprocessor, 8
multiprocessors, warp width 32. -/
def testDeviceProp : cudaDeviceProp :=
  ⟨1024, 32, 2048, 49152, 65536, 8, 32⟩

/-- A concrete kernel footprint for witnesses: 32 registers per thread,
no static shared memory. -/
def testFuncAttrs : cudaFuncAttributes :=
  ⟨32, 0⟩

/-- Error raised by the device memory service when allocation fails
(`thrust::detail::backend::cuda::malloc` throws on exhaustion). -/
inductive LaunchError where
  | outOfDeviceMemory
deriving DecidableEq

/-- Host-side effects of `closure_launcher_base<NullaryFunction,false>::launch`,
in program order: device allocation (with its byte count and the handle
returned), host-to-device copy of the closure into that buffer, kernel
submission with the buffer's address, the optional diagnostic
synchronization, and the free of the buffer. -/
inductive Event where
  | alloc (bytes addr : Nat)
  | copyToDevice (addr : Nat)
  | submitKernel (addr : Nat)
  | syncIfEnabled (label : String)
  | freeBuffer (addr : Nat)
deriving DecidableEq

/-- Discriminator for allocation events. -/
def Event.isAlloc : Event → Bool
  | .alloc _ _ => true
  | _ => false

/-- Discriminator for host-to-device copy events. -/
def Event.isCopy : Event → Bool
  | .copyToDevice _ => true
  | _ => false

/-- Discriminator for kernel-submission events. -/
def Event.isSubmit : Event → Bool
  | .submitKernel _ => true
  | _ => false

/-- Discriminator for free events. -/
def Event.isFree : Event → Bool
  | .freeBuffer _ => true
  | _ => false

/-- Diagnostic label passed to `synchronize_if_enabled` on the
by-pointer path. -/
def byPointerLabel : String :=
  "launch_closure_by_pointer"

/-- `closure_launcher_base<NullaryFunction,false>::launch` as an event
trace: `malloc(sizeof(NullaryFunction))`; on failure the launch aborts
with `outOfDeviceMemory` and nothing was submitted; on success the
closure is copied into the buffer, the kernel is submitted with the
buffer's address, `synchronize_if_enabled` runs when the debug flag is
set, and the buffer is freed.  The allocator is a parameter standing
for the device memory service; `debugSync` is the
`THRUST_DEBUG_SYNC`-style flag consulted by `synchronize_if_enabled`. -/
def closure_launcher_launch_by_pointer (allocate : Nat → Option Nat)
    (sizeofClosure : Nat) (debugSync : Bool) : List Event × Option LaunchError :=
  match allocate sizeofClosure with
  | none => ([], some LaunchError.outOfDeviceMemory)
  | some addr =>
      ([Event.alloc sizeofClosure addr, Event.copyToDevice addr, Event.submitKernel addr]
        ++ (if debugSync then [Event.syncIfEnabled byPointerLabel] else [])
        ++ [Event.freeBuffer addr], none)

/-- The `launch_closure_by_value` device entry point: the closure
arrives as the argument and is invoked directly.  A closure is modelled
as its captured state (`α`) together with its zero-argument operation,
the observable effect `run : α → β`. -/
def launch_closure_by_value {α β : Type} (run : α → β) (f : α) : β :=
  run f

/-- The `launch_closure_by_pointer` device entry point: the closure
arrives as a pointer `p` into device memory `mem`; the pointee is first
copied to registers (`f_reg`) and the copy is invoked. -/
def launch_closure_by_pointer {α β : Type} (run : α → β) (mem : Nat → α) (p : Nat) : β :=
  let f_reg := mem p
  run f_reg

/-- The block-count computation re-modelled with `w`-bit fixed-width
unsigned arithmetic for the promoted `large_integer` and an `s`-bit
`size_t` for the final narrowing: every intermediate of
`min(max_blocks, (n + (block_size - 1)) / block_size)` is reduced
modulo `2 ^ w`, and the result is reduced modulo `2 ^ s`. -/
def num_blocks_fixed_width (w s max_blocks n block_size : Nat) : Nat :=
  let bsub := (block_size + (2 ^ w - 1)) % 2 ^ w
  let total := (n + bsub) % 2 ^ w
  let q := (total / block_size) % 2 ^ w
  (min max_blocks q) % 2 ^ s

/-- `closure_launcher::num_blocks_with_maximal_occupancy` with the
promoted arithmetic carried out at the `w`-bit width of
`large_integer` (the wider of `Size1` and `Size2`; `w = 64` when both
are `size_t`, in which case `size_t` has the same width): the
occupancy ceiling for the given block size and dynamic shared memory
clamps the wrapping ceiling division. -/
def num_blocks_with_maximal_occupancy_fixed (w : Nat) (dev : cudaDeviceProp)
    (fp : cudaFuncAttributes) (n block_size dynamic_smem_bytes_per_block : Nat) : Nat :=
  num_blocks_fixed_width w w
    (max_active_blocks dev fp block_size dynamic_smem_bytes_per_block) n block_size

/-- `closure_launcher::configuration_with_maximal_occupancy` with the
block-count arithmetic carried out at the `w`-bit machine width. -/
def configuration_with_maximal_occupancy_fixed (w : Nat) (dev : cudaDeviceProp)
    (fp : cudaFuncAttributes) (n : Nat) : Nat × Nat :=
  let block_size := block_size_with_maximal_occupancy dev fp 0
  let num_blocks := num_blocks_with_maximal_occupancy_fixed w dev fp n block_size 0
  (num_blocks, block_size)

/-- A kernel footprint whose register usage forbids even one resident
block at every candidate block size on the test device: 65536 registers
per thread, no static shared memory. -/
def hugeRegsFuncAttrs : cudaFuncAttributes :=
  ⟨65536, 0⟩

/-- C++ division as a partial operation: undefined (`none`) when the
divisor is zero, the machine quotient otherwise. -/
def cppDiv (a b : Nat) : Option Nat :=
  if b = 0 then none else some (a / b)

/-- The block-count computation with its division made explicitly
partial, exactly as the source performs it — no zero guard around
`( n + (block_size - 1) ) / block_size`. -/
def num_blocks_unchecked (max_blocks n block_size : Nat) : Option Nat :=
  (cppDiv (n + (block_size - 1)) block_size).map (fun q => min max_blocks q)

/-- Device and kernel state threaded through configuration queries:
`device_properties()` and `function_attributes()` read this state and
leave it unchanged. -/
structure DeviceKernelState where
  props : cudaDeviceProp
  attrs : cudaFuncAttributes

/-- `configuration_with_maximal_occupancy` as a state-passing query: it
reads the device properties and function attributes and returns them
unchanged alongside the `(num_blocks, block_size)` pair. -/
def configuration_query (s : DeviceKernelState) (n : Nat) : (Nat × Nat) × DeviceKernelState :=
  (configuration_with_maximal_occupancy s.props s.attrs n, s)

/-- The clamp returns the minimum of the block ceiling and the ceiling
division, and either covers `n` or equals the block ceiling. -/
theorem num_blocks_clamped_spec (mb n bs : Nat) (hbs : 0 < bs) :
    num_blocks_clamped mb n bs = min mb (n ⌈/⌉ bs) ∧
    (n ≤ num_blocks_clamped mb n bs * bs ∨ num_blocks_clamped mb n bs = mb) := by
  have hnum : n + (bs - 1) = n + bs - 1 := by omega
  have heq : num_blocks_clamped mb n bs = min mb (n ⌈/⌉ bs) := by
    rw [num_blocks_clamped, Nat.ceilDiv_eq_add_pred_div, hnum]
  refine ⟨heq, ?_⟩
  rcases le_total mb (n ⌈/⌉ bs) with h | h
  · right
    rw [heq]
    exact min_eq_left h
  · left
    have hcov : n ≤ bs * (n ⌈/⌉ bs) := (ceilDiv_le_iff_le_mul hbs).1 le_rfl
    rw [heq, min_eq_right h, Nat.mul_comm]
    exact hcov

/-- Claim C1: the dispatch path is selected by the closure's static
size: `sizeof(closure) ≤ 256` selects the by-value launch path and
`sizeof(closure) > 256` selects the by-pointer launch path, with the
boundary falling between 256 and 257 bytes. -/
theorem claim_C1_dispatch_threshold :
    (∀ sizeofClosure : Nat,
      (launch_by_value sizeofClosure = true ↔ sizeofClosure ≤ 256) ∧
      (launch_by_value sizeofClosure = false ↔ 256 < sizeofClosure)) ∧
    launch_by_value 256 = true ∧ launch_by_value 257 = false := by
  refine ⟨fun s => ⟨?_, ?_⟩, by decide, by decide⟩ <;> simp [launch_by_value]

/-- The fixed-width block-count computation agrees with the exact clamp
whenever the divisor is positive, the numerator `n + (bs - 1)` is
representable in the wide width `w`, and `max_blocks` is representable
in the narrow width `s`. -/
theorem num_blocks_fixed_width_eq (w s mb n bs : Nat) (hbs : 0 < bs)
    (hrep : n + (bs - 1) < 2 ^ w) (hmb : mb < 2 ^ s) :
    num_blocks_fixed_width w s mb n bs = num_blocks_clamped mb n bs := by
  have h2 : 0 < 2 ^ w := pow_pos (by norm_num) w
  have hbs1 : bs - 1 < 2 ^ w := by omega
  have hb : (bs + (2 ^ w - 1)) % 2 ^ w = bs - 1 := by
    have he : bs + (2 ^ w - 1) = (bs - 1) + 2 ^ w := by omega
    rw [he, Nat.add_mod_right, Nat.mod_eq_of_lt hbs1]
  have hq : (n + (bs - 1)) / bs < 2 ^ w :=
    lt_of_le_of_lt (Nat.div_le_self _ _) hrep
  have hmin : min mb ((n + (bs - 1)) / bs) ≤ mb := min_le_left _ _
  simp only [num_blocks_fixed_width, num_blocks_clamped, hb,
    Nat.mod_eq_of_lt hrep, Nat.mod_eq_of_lt hq,
    Nat.mod_eq_of_lt (lt_of_le_of_lt hmin hmb)]

/-- Claim C2 counterexample: at the representable input
`n = 2 ^ 64 - 1`, `block_size = 2` on the test device, the source's
64-bit arithmetic wraps the ceiling-division numerator, so
`num_blocks_with_maximal_occupancy` returns `0` — which is not
`min(max_active_blocks, ceil(n / block_size)) = 256`, does not cover
`n`, and does not equal `max_active_blocks` either; the claim's
for-every-`n` conclusion fails on the program. -/
theorem claim_C2_counterexample_wrap :
    num_blocks_with_maximal_occupancy_fixed 64 testDeviceProp testFuncAttrs
      (2 ^ 64 - 1) 2 0 = 0 ∧
    min (max_active_blocks testDeviceProp testFuncAttrs 2 0) ((2 ^ 64 - 1) ⌈/⌉ 2) = 256 ∧
    ¬((2 ^ 64 - 1 : Nat) ≤ 0 * 2) ∧
    (0 : Nat) ≠ max_active_blocks testDeviceProp testFuncAttrs 2 0 := by
  refine ⟨?_, ?_, ?_, ?_⟩ <;> decide

/-- Claim C2 (amended): for every positive `block_size` and every `n`
whose ceiling-division numerator `n + (block_size - 1)` fits the
promoted `w`-bit width (with the occupancy ceiling also `w`-bit
representable), `num_blocks_with_maximal_occupancy` returns the
minimum of `max_active_blocks` for that block size and the ceiling of
`n / block_size`; consequently the result times `block_size` covers
`n`, or else the result equals `max_active_blocks`. -/
theorem claim_C2_amended_num_blocks (dev : cudaDeviceProp) (fp : cudaFuncAttributes)
    (w n bs smem : Nat) (hbs : 0 < bs) (hrep : n + (bs - 1) < 2 ^ w)
    (hmab : max_active_blocks dev fp bs smem < 2 ^ w) :
    num_blocks_with_maximal_occupancy_fixed w dev fp n bs smem
      = min (max_active_blocks dev fp bs smem) (n ⌈/⌉ bs) ∧
    (n ≤ num_blocks_with_maximal_occupancy_fixed w dev fp n bs smem * bs ∨
      num_blocks_with_maximal_occupancy_fixed w dev fp n bs smem
        = max_active_blocks dev fp bs smem) := by
  have heq : num_blocks_with_maximal_occupancy_fixed w dev fp n bs smem
      = num_blocks_clamped (max_active_blocks dev fp bs smem) n bs :=
    num_blocks_fixed_width_eq w w _ n bs hbs hrep hmab
  obtain ⟨h1, h2⟩ := num_blocks_clamped_spec (max_active_blocks dev fp bs smem) n bs hbs
  rw [heq]
  exact ⟨h1, h2⟩

/-- Witness for the amended C2 at the design document's concrete
scenario: the test device at 64-bit width, a million items, block size
256, no dynamic shared memory. -/
theorem claim_C2_amended_num_blocks_witness :
    num_blocks_with_maximal_occupancy_fixed 64 testDeviceProp testFuncAttrs 1000000 256 0
      = min (max_active_blocks testDeviceProp testFuncAttrs 256 0) (1000000 ⌈/⌉ 256) ∧
    (1000000 ≤
        num_blocks_with_maximal_occupancy_fixed 64 testDeviceProp testFuncAttrs
          1000000 256 0 * 256 ∨
      num_blocks_with_maximal_occupancy_fixed 64 testDeviceProp testFuncAttrs 1000000 256 0
        = max_active_blocks testDeviceProp testFuncAttrs 256 0) :=
  claim_C2_amended_num_blocks testDeviceProp testFuncAttrs 64 1000000 256 0
    (by decide) (by decide) (by decide)

/-- Claim C3: on equal closure state, the by-pointer device entry point
(copy the pointee to registers, then invoke) and the by-value entry
point (invoke the argument directly) produce identical observable
results. -/
theorem claim_C3_entry_points_equivalent {α β : Type} (run : α → β) (mem : Nat → α)
    (p : Nat) (f : α) (h : mem p = f) :
    launch_closure_by_pointer run mem p = launch_closure_by_value run f := by
  simp [launch_closure_by_pointer, launch_closure_by_value, h]

/-- Witness for C3: a concrete closure over `Nat` stored at address 0. -/
theorem claim_C3_entry_points_equivalent_witness :
    launch_closure_by_pointer (fun x : Nat => x + 1) (fun _ => 5) 0
      = launch_closure_by_value (fun x : Nat => x + 1) 5 :=
  claim_C3_entry_points_equivalent (fun x : Nat => x + 1) (fun _ => 5) 0 5 rfl

/-- Claim C4: when device allocation fails, the by-pointer launch
produces no events at all — in particular it submits no kernel — and
propagates `outOfDeviceMemory`. -/
theorem claim_C4_allocation_failure (allocate : Nat → Option Nat)
    (sizeofClosure : Nat) (debugSync : Bool) (h : allocate sizeofClosure = none) :
    closure_launcher_launch_by_pointer allocate sizeofClosure debugSync
      = ([], some LaunchError.outOfDeviceMemory) ∧
    ∀ a, Event.submitKernel a ∉
      (closure_launcher_launch_by_pointer allocate sizeofClosure debugSync).1 := by
  constructor
  · simp [closure_launcher_launch_by_pointer, h]
  · intro a
    simp [closure_launcher_launch_by_pointer, h]

/-- Witness for C4: an exhausted allocator and a 512-byte closure. -/
theorem claim_C4_allocation_failure_witness :
    closure_launcher_launch_by_pointer (fun _ => none) 512 false
      = ([], some LaunchError.outOfDeviceMemory) ∧
    ∀ a, Event.submitKernel a ∉
      (closure_launcher_launch_by_pointer (fun _ => none) 512 false).1 :=
  claim_C4_allocation_failure (fun _ => none) 512 false rfl

/-- Claim C7: a by-pointer launch whose allocation succeeds performs
exactly one allocation of exactly `sizeof(Closure)` bytes, exactly one
host-to-device copy into that buffer, exactly one kernel submission
with that buffer's address, and exactly one free of the same buffer,
in that order (the free strictly after the submission), and reports no
error. -/
theorem claim_C7_by_pointer_effect_order (allocate : Nat → Option Nat)
    (sizeofClosure : Nat) (debugSync : Bool) (a : Nat)
    (h : allocate sizeofClosure = some a) :
    ((closure_launcher_launch_by_pointer allocate sizeofClosure debugSync).1.filter
        Event.isAlloc = [Event.alloc sizeofClosure a]) ∧
    ((closure_launcher_launch_by_pointer allocate sizeofClosure debugSync).1.filter
        Event.isCopy = [Event.copyToDevice a]) ∧
    ((closure_launcher_launch_by_pointer allocate sizeofClosure debugSync).1.filter
        Event.isSubmit = [Event.submitKernel a]) ∧
    ((closure_launcher_launch_by_pointer allocate sizeofClosure debugSync).1.filter
        Event.isFree = [Event.freeBuffer a]) ∧
    List.Sublist
      [Event.alloc sizeofClosure a, Event.copyToDevice a, Event.submitKernel a,
        Event.freeBuffer a]
      (closure_launcher_launch_by_pointer allocate sizeofClosure debugSync).1 ∧
    (closure_launcher_launch_by_pointer allocate sizeofClosure debugSync).2 = none := by
  cases debugSync <;>
    refine ⟨?_, ?_, ?_, ?_, ?_, ?_⟩ <;>
      simp [closure_launcher_launch_by_pointer, h, List.filter,
        Event.isAlloc, Event.isCopy, Event.isSubmit, Event.isFree]

/-- Witness for C7: a successful allocator handing out address 7 for a
512-byte closure with the diagnostic synchronization enabled. -/
theorem claim_C7_by_pointer_effect_order_witness :
    ((closure_launcher_launch_by_pointer (fun _ => some 7) 512 true).1.filter
        Event.isAlloc = [Event.alloc 512 7]) ∧
    ((closure_launcher_launch_by_pointer (fun _ => some 7) 512 true).1.filter
        Event.isCopy = [Event.copyToDevice 7]) ∧
    ((closure_launcher_launch_by_pointer (fun _ => some 7) 512 true).1.filter
        Event.isSubmit = [Event.submitKernel 7]) ∧
    ((closure_launcher_launch_by_pointer (fun _ => some 7) 512 true).1.filter
        Event.isFree = [Event.freeBuffer 7]) ∧
    List.Sublist
      [Event.alloc 512 7, Event.copyToDevice 7, Event.submitKernel 7, Event.freeBuffer 7]
      (closure_launcher_launch_by_pointer (fun _ => some 7) 512 true).1 ∧
    (closure_launcher_launch_by_pointer (fun _ => some 7) 512 true).2 = none :=
  claim_C7_by_pointer_effect_order (fun _ => some 7) 512 true 7 rfl

/-- A fold that at each step keeps either the incumbent or the current
list element preserves any predicate holding of the initial value and
of every element. -/
theorem foldl_select_preserves {P : Nat → Prop} (q : Nat → Nat → Prop) [DecidableRel q] :
    ∀ (l : List Nat) (init : Nat), P init → (∀ x ∈ l, P x) →
      P (l.foldl (fun best bs => if q best bs then bs else best) init)
  | [], _, hi, _ => hi
  | x :: xs, init, hi, hl => by
      simp only [List.foldl_cons]
      apply foldl_select_preserves q xs
      · by_cases hfx : q init x
        · simpa [hfx] using hl x (by simp)
        · simpa [hfx] using hi
      · intro y hy
        exact hl y (by simp [hy])

/-- The modelled block-size search returns a positive multiple of the
warp width that does not exceed the device's max threads per block,
provided the warp width is positive and fits in the block limit. -/
theorem max_blocksize_bounds (dev : cudaDeviceProp) (fp : cudaFuncAttributes)
    (d : Nat) (hw : 0 < dev.warpSize) (hwt : dev.warpSize ≤ dev.maxThreadsPerBlock) :
    0 < max_blocksize_with_highest_occupancy dev fp d ∧
    dev.warpSize ∣ max_blocksize_with_highest_occupancy dev fp d ∧
    max_blocksize_with_highest_occupancy dev fp d ≤ dev.maxThreadsPerBlock := by
  have hP : ∀ x ∈ (List.range (dev.maxThreadsPerBlock / dev.warpSize)).map
      (fun i => (i + 1) * dev.warpSize),
      0 < x ∧ dev.warpSize ∣ x ∧ x ≤ dev.maxThreadsPerBlock := by
    intro x hx
    simp only [List.mem_map, List.mem_range] at hx
    obtain ⟨i, hi, rfl⟩ := hx
    refine ⟨Nat.mul_pos (Nat.succ_pos i) hw, dvd_mul_left _ _, ?_⟩
    calc (i + 1) * dev.warpSize
        ≤ dev.maxThreadsPerBlock / dev.warpSize * dev.warpSize :=
          Nat.mul_le_mul_right _ hi
      _ ≤ dev.maxThreadsPerBlock := Nat.div_mul_le_self _ _
  simp only [max_blocksize_with_highest_occupancy]
  exact foldl_select_preserves
    (fun best bs => occupied_threads dev fp d best ≤ occupied_threads dev fp d bs)
    _ _ ⟨hw, dvd_refl _, hwt⟩ hP

/-- Claim C9: `block_size_with_maximal_occupancy` returns a block size
that never exceeds the device's max threads per block and is a positive
multiple of the warp width (the scheduling granularity); in particular
it is never zero. -/
theorem claim_C9_block_size_valid (dev : cudaDeviceProp) (fp : cudaFuncAttributes)
    (dynamic_smem_bytes_per_thread : Nat) (hw : 0 < dev.warpSize)
    (hwt : dev.warpSize ≤ dev.maxThreadsPerBlock) :
    0 < block_size_with_maximal_occupancy dev fp dynamic_smem_bytes_per_thread ∧
    dev.warpSize ∣ block_size_with_maximal_occupancy dev fp dynamic_smem_bytes_per_thread ∧
    block_size_with_maximal_occupancy dev fp dynamic_smem_bytes_per_thread
      ≤ dev.maxThreadsPerBlock :=
  max_blocksize_bounds dev fp dynamic_smem_bytes_per_thread hw hwt

/-- Witness for C9 on the concrete test device with no dynamic shared
memory. -/
theorem claim_C9_block_size_valid_witness :
    0 < block_size_with_maximal_occupancy testDeviceProp testFuncAttrs 0 ∧
    testDeviceProp.warpSize ∣ block_size_with_maximal_occupancy testDeviceProp testFuncAttrs 0 ∧
    block_size_with_maximal_occupancy testDeviceProp testFuncAttrs 0
      ≤ testDeviceProp.maxThreadsPerBlock :=
  claim_C9_block_size_valid testDeviceProp testFuncAttrs 0 (by decide) (by decide)

set_option maxRecDepth 8192 in
/-- Claim C5 counterexample: three concrete launches on the test device
derive `num_blocks = 0`, refuting positivity of `num_blocks` for every
problem size: (a) at `n = 0` the clamp evaluates to zero; (b) at the
representable `n = 2 ^ 64 - 1` the 64-bit ceiling-division numerator
wraps and the block count is zero although `n` is positive and the
occupancy ceiling is positive; (c) for a kernel footprint whose
register usage admits no resident block, the occupancy ceiling is zero
and so is the block count, although `n = 1000000` is positive. -/
theorem claim_C5_counterexample_zero_blocks :
    ((configuration_with_maximal_occupancy_fixed 64 testDeviceProp testFuncAttrs 0).1 = 0 ∧
      ¬ 0 < (configuration_with_maximal_occupancy_fixed 64 testDeviceProp testFuncAttrs 0).1) ∧
    ((configuration_with_maximal_occupancy_fixed 64 testDeviceProp testFuncAttrs
        (2 ^ 64 - 1)).1 = 0 ∧
      0 < (2 ^ 64 - 1 : Nat) ∧
      0 < max_active_blocks testDeviceProp testFuncAttrs
          (configuration_with_maximal_occupancy_fixed 64 testDeviceProp testFuncAttrs
            (2 ^ 64 - 1)).2 0) ∧
    ((configuration_with_maximal_occupancy_fixed 64 testDeviceProp hugeRegsFuncAttrs
        1000000).1 = 0 ∧
      max_active_blocks testDeviceProp hugeRegsFuncAttrs
        (configuration_with_maximal_occupancy_fixed 64 testDeviceProp hugeRegsFuncAttrs
          1000000).2 0 = 0) := by
  refine ⟨⟨?_, ?_⟩, ⟨?_, ?_, ?_⟩, ⟨?_, ?_⟩⟩ <;> decide

/-- Claim C5 (amended): every configuration derived from a problem size
`n` with the `w`-bit machine arithmetic has a positive block size not
exceeding the device's max threads per block (given a positive warp
width that fits in that limit); whenever `n` is positive, the ceiling
numerator `n + (block_size - 1)` fits in `w` bits, and the occupancy
ceiling is positive (and `w`-bit representable), `num_blocks` is also
positive, and coverage `n ≤ num_blocks × block_size` holds unless the
result is the clamp `max_active_blocks`.  At `n = 0`, on numerator
overflow, or at a zero occupancy ceiling the code returns
`num_blocks = 0`. -/
theorem claim_C5_amended_config_invariant (dev : cudaDeviceProp) (fp : cudaFuncAttributes)
    (w n : Nat) (hw : 0 < dev.warpSize) (hwt : dev.warpSize ≤ dev.maxThreadsPerBlock)
    (hn : 0 < n)
    (hrep : n + ((configuration_with_maximal_occupancy_fixed w dev fp n).2 - 1) < 2 ^ w)
    (hmab : 0 < max_active_blocks dev fp
        (configuration_with_maximal_occupancy_fixed w dev fp n).2 0)
    (hmabw : max_active_blocks dev fp
        (configuration_with_maximal_occupancy_fixed w dev fp n).2 0 < 2 ^ w) :
    0 < (configuration_with_maximal_occupancy_fixed w dev fp n).2 ∧
    (configuration_with_maximal_occupancy_fixed w dev fp n).2 ≤ dev.maxThreadsPerBlock ∧
    0 < (configuration_with_maximal_occupancy_fixed w dev fp n).1 ∧
    (n ≤ (configuration_with_maximal_occupancy_fixed w dev fp n).1 *
        (configuration_with_maximal_occupancy_fixed w dev fp n).2 ∨
      (configuration_with_maximal_occupancy_fixed w dev fp n).1 =
        max_active_blocks dev fp (configuration_with_maximal_occupancy_fixed w dev fp n).2 0) := by
  have h2 : (configuration_with_maximal_occupancy_fixed w dev fp n).2
      = block_size_with_maximal_occupancy dev fp 0 := rfl
  have h1 : (configuration_with_maximal_occupancy_fixed w dev fp n).1
      = num_blocks_fixed_width w w
          (max_active_blocks dev fp (block_size_with_maximal_occupancy dev fp 0) 0)
          n (block_size_with_maximal_occupancy dev fp 0) := rfl
  obtain ⟨hpos0, _, hle⟩ := max_blocksize_bounds dev fp 0 hw hwt
  have hpos : 0 < block_size_with_maximal_occupancy dev fp 0 := hpos0
  rw [h2] at hmab hmabw hrep
  rw [h1, h2]
  have heq := num_blocks_fixed_width_eq w w
    (max_active_blocks dev fp (block_size_with_maximal_occupancy dev fp 0) 0)
    n (block_size_with_maximal_occupancy dev fp 0) hpos hrep hmabw
  rw [heq]
  refine ⟨hpos, hle, ?_, ?_⟩
  · have hcd : 0 <
        (n + (block_size_with_maximal_occupancy dev fp 0 - 1)) /
          block_size_with_maximal_occupancy dev fp 0 := by
      rw [Nat.pos_iff_ne_zero, Ne, Nat.div_eq_zero_iff hpos]
      omega
    exact lt_min hmab hcd
  · exact (num_blocks_clamped_spec _ n _ hpos).2

set_option maxRecDepth 8192 in
/-- Witness for the amended C5 on the test device at 64-bit width and a
million items. -/
theorem claim_C5_amended_config_invariant_witness :
    0 < (configuration_with_maximal_occupancy_fixed 64 testDeviceProp testFuncAttrs 1000000).2 ∧
    (configuration_with_maximal_occupancy_fixed 64 testDeviceProp testFuncAttrs 1000000).2
      ≤ testDeviceProp.maxThreadsPerBlock ∧
    0 < (configuration_with_maximal_occupancy_fixed 64 testDeviceProp testFuncAttrs 1000000).1 ∧
    (1000000 ≤
        (configuration_with_maximal_occupancy_fixed 64 testDeviceProp testFuncAttrs 1000000).1 *
        (configuration_with_maximal_occupancy_fixed 64 testDeviceProp testFuncAttrs 1000000).2 ∨
      (configuration_with_maximal_occupancy_fixed 64 testDeviceProp testFuncAttrs 1000000).1 =
        max_active_blocks testDeviceProp testFuncAttrs
          (configuration_with_maximal_occupancy_fixed 64 testDeviceProp testFuncAttrs
            1000000).2 0) :=
  claim_C5_amended_config_invariant testDeviceProp testFuncAttrs 64 1000000
    (by decide) (by decide) (by decide) (by decide) (by decide) (by decide)

/-- Claim C6 counterexample: with the promoted arithmetic carried out
at the full 64-bit width of both operand types, `n = 2 ^ 64 - 1` and
`block_size = 2` are representable, yet the ceiling-division numerator
wraps: the computed block count is `0` while the true clamp
`min(max_blocks, ceil(n / block_size))` is `2 ^ 63`. -/
theorem claim_C6_counterexample_overflow :
    num_blocks_fixed_width 64 64 (2 ^ 63) (2 ^ 64 - 1) 2 = 0 ∧
    min (2 ^ 63) (((2 ^ 64 - 1) + (2 - 1)) / 2) = 2 ^ 63 ∧
    num_blocks_fixed_width 64 64 (2 ^ 63) (2 ^ 64 - 1) 2
      ≠ min (2 ^ 63) (((2 ^ 64 - 1) + (2 - 1)) / 2) := by
  refine ⟨?_, ?_, ?_⟩ <;> norm_num [num_blocks_fixed_width]

/-- Claim C6 (amended): carrying the computation in a width `w` at
least as wide as both operand types prevents narrowing before the
division, and whenever the numerator `n + (block_size - 1)` actually
fits in `w` bits the fixed-width computation agrees with the exact
clamp; the narrowing to a `s`-bit `size_t` after the min-clamp is
lossless whenever `max_blocks` fits in `s` bits, since the result never
exceeds `max_blocks`.  (The numerator can still overflow for `n` within
`block_size - 1` of the top of the wide type, as the counterexample
shows, so overflow freedom for all representable inputs does not
hold.) -/
theorem claim_C6_amended_fixed_width (w s mb n bs : Nat) (hbs : 0 < bs)
    (hrep : n + (bs - 1) < 2 ^ w) (hmb : mb < 2 ^ s) :
    num_blocks_fixed_width w s mb n bs = num_blocks_clamped mb n bs ∧
    num_blocks_fixed_width w s mb n bs ≤ mb := by
  have heq := num_blocks_fixed_width_eq w s mb n bs hbs hrep hmb
  refine ⟨heq, ?_⟩
  rw [heq]
  show min mb ((n + (bs - 1)) / bs) ≤ mb
  exact min_le_left _ _

/-- Witness for the amended C6 at width 8 with `n = 10`,
`block_size = 2`, `max_blocks = 5`. -/
theorem claim_C6_amended_fixed_width_witness :
    num_blocks_fixed_width 8 8 5 10 2 = num_blocks_clamped 5 10 2 ∧
    num_blocks_fixed_width 8 8 5 10 2 ≤ 5 :=
  claim_C6_amended_fixed_width 8 8 5 10 2 (by decide) (by decide) (by decide)

/-- Claim C8: with unchanged device and kernel state, two successive
`configuration_with_maximal_occupancy` queries at the same `n` return
identical `(num_blocks, block_size)` pairs, and a query leaves the
state unchanged. -/
theorem claim_C8_configuration_idempotent (s : DeviceKernelState) (n : Nat) :
    (configuration_query ((configuration_query s n).2) n).1 = (configuration_query s n).1 ∧
    (configuration_query s n).2 = s :=
  ⟨rfl, rfl⟩

/-- Claim C10: the ceiling division of the block-count computation
carries no zero guard; under the precondition `0 < block_size` the
division is defined and the subtraction `block_size - 1` is exact, and
the partial computation agrees with the total clamp, while for
`block_size = 0` it has no defined result. -/
theorem claim_C10_division_precondition (mb n bs : Nat) :
    (0 < bs →
      num_blocks_unchecked mb n bs = some (num_blocks_clamped mb n bs) ∧
      bs - 1 + 1 = bs) ∧
    num_blocks_unchecked mb n 0 = none := by
  constructor
  · intro hbs
    have h0 : bs ≠ 0 := by omega
    constructor
    · simp [num_blocks_unchecked, cppDiv, h0, num_blocks_clamped]
    · omega
  · simp [num_blocks_unchecked, cppDiv]

/-- Witness for C10 at `max_blocks = 5`, `n = 10`, `block_size = 2`. -/
theorem claim_C10_division_precondition_witness :
    num_blocks_unchecked 5 10 2 = some (num_blocks_clamped 5 10 2) ∧ 2 - 1 + 1 = 2 :=
  (claim_C10_division_precondition 5 10 2).1 (by decide)
